import Mathlib

/-!
Shallow embedding of `src/counter.py` (a SAM-pattern counter application),
`src/todo_refactoring.py` and `src/todo_tmp.py` (two to-do variants), together
with theorems checking the natural-language specification against the code.

Modelling conventions:
* Python exceptions are modelled by the inductive type `Exc`; functions that
  may raise return `Except Exc _`, or carry an `Option Exc` component for an
  exception that propagates out of a statement sequence.
* `State` observers are modelled by identities (`Nat`).  Observers in this
  program (`View`, `CountDisplay`) are passive: their `on_state_changed` only
  updates UI widgets and never mutates `State`, so a `notify()` call is
  modelled as emitting one `(observer, snapshot)` delivery per bound observer.
  Each state-mutating operation returns the new state together with the list
  of `on_state_changed` deliveries it performed, in order.
* A transaction change (`Callable[[State], None]` in Python) is an arbitrary
  function from a state to a `ChangeResult`: a new state and the deliveries it
  emitted, either returning normally or raising an exception after possibly
  having mutated the state (modelling partial effects of a failing step).
* `commit_transaction_async` awaits each change sequentially via
  `asyncio.to_thread` and has the same try/rollback/set_error structure as
  `commit_transaction`; it is modelled by the same function.
-/

/-- Exceptions of the counter application: `StateValueError(detail)` (the
domain validation error, whose message is built from its detail), Python's
`ValueError(message)` raised by `calculate_next_count`, and any other
exception kind. -/
inductive Exc where
  | stateValueError (detail : String)
  | valueError (message : String)
  | otherError (info : String)
deriving Repr, DecidableEq

/-- Tests `isinstance(e, StateValueError)`. -/
def Exc.isStateValueError : Exc → Bool
  | .stateValueError _ => true
  | _ => false

/-- Python `str(error)`.  `StateValueError.__init__` calls
`super().__init__(f"エラーが発生しました: {detail}")`, so its string rendering is
the detail prefixed with that fixed text. -/
def Exc.str : Exc → String
  | .stateValueError detail => "エラーが発生しました: " ++ detail
  | .valueError message => message
  | .otherError info => info

/-- `ValidationResult`: outcome of `Model.validate_count`. -/
structure ValidationResult where
  is_valid : Bool
  error : Option Exc := none
deriving Repr, DecidableEq

/-- `StateSnapshot`: immutable snapshot of the store (`count`, `error`). -/
structure StateSnapshot where
  count : Int
  error : Option Exc := none
deriving Repr, DecidableEq

/-- `ViewModel`: display data produced by the Presenter. -/
structure ViewModel where
  display_count : String
  error_message : Option String := none
deriving Repr, DecidableEq

/-- Observers are modelled by identities. -/
abbrev ObserverId := Nat

/-- One `on_state_changed` delivery: which observer received which snapshot. -/
abbrev Notification := ObserverId × StateSnapshot

/-- The ordered list of `on_state_changed` deliveries an operation performed. -/
abbrev Log := List Notification

/-- `State`: the store of `counter.py` — counter value, current error, and the
registry of bound observers. -/
structure State where
  count : Int
  error : Option Exc
  observers : List ObserverId
deriving Repr, DecidableEq

/-- Result of running one transaction change on a state: either it returns
normally or it raises, in both cases having produced a possibly-mutated state
and some `on_state_changed` deliveries. -/
inductive ChangeResult where
  | ok (s : State) (log : Log)
  | raised (s : State) (log : Log) (e : Exc)

/-- A transaction change: `Callable[[State], None]`, possibly raising. -/
abbrev Change := State → ChangeResult

/-- `StateTransaction`: the captured initial snapshot plus the change list. -/
structure StateTransaction where
  initial_state : StateSnapshot
  changes : List Change

/-- `State.__init__`: count 0, no error, no observers. -/
def State.init : State := { count := 0, error := none, observers := [] }

/-- `State.get_snapshot`. -/
def State.get_snapshot (s : State) : StateSnapshot :=
  { count := s.count, error := s.error }

/-- `State.notify`: deliver the current snapshot to every bound observer. -/
def State.notify (s : State) : Log :=
  s.observers.map (fun o => (o, s.get_snapshot))

/-- `State.bind`: append the observer unless it is already registered. -/
def State.bind (s : State) (control : ObserverId) : State :=
  if control ∈ s.observers then s
  else { s with observers := s.observers ++ [control] }

/-- `State.unbind`: remove the observer (first occurrence, as Python
`list.remove`) and return `true` iff it was present. -/
def State.unbind (s : State) (control : ObserverId) : State × Bool :=
  if control ∈ s.observers then
    ({ s with observers := s.observers.erase control }, true)
  else (s, false)

/-- `State.increment`: add one to the count, then notify. -/
def State.increment (s : State) : State × Log :=
  let s1 : State := { s with count := s.count + 1 }
  (s1, s1.notify)

/-- `State.decrement`: subtract one from the count, then notify. -/
def State.decrement (s : State) : State × Log :=
  let s1 : State := { s with count := s.count - 1 }
  (s1, s1.notify)

/-- `State.set_error`: overwrite the error field, then notify. -/
def State.set_error (s : State) (e : Option Exc) : State × Log :=
  let s1 : State := { s with error := e }
  (s1, s1.notify)

/-- `State.has_error`. -/
def State.has_error (s : State) : Bool :=
  s.error.isSome

/-- `State.begin_transaction`: capture the current snapshot, empty change
list. -/
def State.begin_transaction (s : State) : StateTransaction :=
  { initial_state := s.get_snapshot, changes := [] }

/-- The `for change in transaction.changes: change(self)` loop inside the
`try` of `commit_transaction`: runs the changes in order until the first one
raises, returning the resulting state, the concatenated deliveries, and the
first raised exception if any. -/
def State.commitChanges : State → List Change → State × Log × Option Exc
  | s, [] => (s, [], none)
  | s, change :: rest =>
    match change s with
    | .ok s1 log1 =>
      let r := State.commitChanges s1 rest
      (r.1, log1 ++ r.2.1, r.2.2)
    | .raised s1 log1 e => (s1, log1, some e)

/-- `State.commit_transaction`: run the changes; if one raises, restore
`_count` from the transaction's initial snapshot and `set_error` the raised
exception (which notifies).  `commit_transaction_async` is modelled by the
same function (see the module comment). -/
def State.commit_transaction (s : State) (transaction : StateTransaction) :
    State × Log :=
  match s.commitChanges transaction.changes with
  | (s1, log, none) => (s1, log)
  | (s1, log, some e) =>
    let s2 : State := { s1 with count := transaction.initial_state.count }
    let r := s2.set_error (some e)
    (r.1, log ++ r.2)

namespace Model

/-- `Model.calculate_next_count`: `match operation` with cases `"increment"`
and `"decrement"`; any other operation raises
`ValueError(f"Unsupported operation: {operation}")`. -/
def calculate_next_count (current_count : Int) (operation : String) :
    Except Exc Int :=
  if operation = "increment" then .ok (current_count + 1)
  else if operation = "decrement" then .ok (current_count - 1)
  else .error (.valueError ("Unsupported operation: " ++ operation))

/-- `Model.validate_count`: a negative count is invalid with
`StateValueError("値は負の数にできません。")`. -/
def validate_count (count : Int) : ValidationResult :=
  if count < 0 then
    { is_valid := false, error := some (.stateValueError "値は負の数にできません。") }
  else { is_valid := true }

/-- `Model.apply_increment`: calls `state.increment()`; never raises. -/
def apply_increment : Change := fun state =>
  let r := state.increment
  .ok r.1 r.2

/-- `Model.apply_decrement`: calls `state.decrement()`; never raises. -/
def apply_decrement : Change := fun state =>
  let r := state.decrement
  .ok r.1 r.2

/-- `Model._prepare_transaction`: begin a transaction, compute the next count
(a `ValueError` from `calculate_next_count` propagates), validate it, and
append `apply_increment`/`apply_decrement` to the change list only when the
validation succeeded; on a failed validation the change list stays empty. -/
def _prepare_transaction (state : State) (operation : String) :
    Except Exc (StateTransaction × ValidationResult) :=
  let transaction := state.begin_transaction
  match calculate_next_count state.count operation with
  | .error e => .error e
  | .ok next_count =>
    let validation := validate_count next_count
    let changes : List Change :=
      if validation.is_valid then
        if operation = "increment" then [apply_increment]
        else if operation = "decrement" then [apply_decrement]
        else []
      else []
    .ok ({ transaction with changes := changes }, validation)

/-- `Model.choose_error`: no current error → adopt the new one; a current
error that is not a `StateValueError` sticks; otherwise the new error (or
`None`) overwrites. -/
def choose_error (current_error new_error : Option Exc) : Option Exc :=
  match current_error with
  | none => new_error
  | some c => if ¬ c.isStateValueError then some c else new_error

/-- `Model.update_error`: set the error chosen by `choose_error` from the
current store error and the validation's error (always calls `set_error`). -/
def update_error (state : State) (validation : ValidationResult) :
    State × Log :=
  let new_error := validation.error
  let updated_error := choose_error state.error new_error
  state.set_error updated_error

/-- `Model.update_count`: prepare the transaction (an exception from the
planning step propagates to the caller with the state untouched), commit it,
then reconcile the error state.  Returns the final state, the deliveries
performed, and the propagated exception if any. -/
def update_count (state : State) (operation : String) :
    State × Log × Option Exc :=
  match _prepare_transaction state operation with
  | .error e => (state, [], some e)
  | .ok (transaction, validation) =>
    let r1 := state.commit_transaction transaction
    let r2 := update_error r1.1 validation
    (r2.1, r1.2 ++ r2.2, none)

end Model

namespace Presenter

/-- `Presenter._create_view_model`: a total projection from a snapshot to the
view model.  `match snapshot.error`: `None` → no message; `StateValueError` →
`str(error)`; anything else → the generic fallback message.  The displayed
count is `str(snapshot.count)`. -/
def _create_view_model (snapshot : StateSnapshot) : ViewModel :=
  let error_message : Option String :=
    match snapshot.error with
    | none => none
    | some (.stateValueError detail) => some (Exc.str (.stateValueError detail))
    | some _ => some "予期せぬエラーが発生しました。"
  { display_count := toString snapshot.count, error_message := error_message }

end Presenter

namespace TodoRefactoring

/-- `TaskState` of `todo_refactoring.py`: a task is identified only by its
display name. -/
structure TaskState where
  task_name : String
  completed : Bool
deriving Repr, DecidableEq

/-- `TaskState.with_completed`. -/
def TaskState.with_completed (t : TaskState) (completed : Bool) : TaskState :=
  { task_name := t.task_name, completed := completed }

/-- `TaskState.with_task_name`. -/
def TaskState.with_task_name (t : TaskState) (task_name : String) : TaskState :=
  { task_name := task_name, completed := t.completed }

/-- `TodoState.remove_task`: keep only the tasks whose name differs — every
task carrying the given name is removed. -/
def remove_task (tasks : List TaskState) (task_name : String) : List TaskState :=
  tasks.filter (fun task => task.task_name ≠ task_name)

/-- `TodoState.toggle_task_state`: flip `completed` on every task carrying
the given name. -/
def toggle_task_state (tasks : List TaskState) (task_name : String) :
    List TaskState :=
  tasks.map (fun task =>
    if task.task_name = task_name then task.with_completed (! task.completed)
    else task)

/-- `TodoState.edit_task`: rename every task carrying the given name. -/
def edit_task (tasks : List TaskState) (task_name new_task_name : String) :
    List TaskState :=
  tasks.map (fun task =>
    if task.task_name = task_name then task.with_task_name new_task_name
    else task)

end TodoRefactoring

namespace TodoTmp

/-- `TodoState` of `todo_tmp.py`, the identifier-keyed variant: each record
carries a unique id (UUIDs are modelled by `Nat`; the `created_at` and
`updated_at` wall-clock timestamps are outside the claims and omitted). -/
structure TodoState where
  id : Nat
  task_name : String
  editing : Bool
  completed : Bool
deriving Repr, DecidableEq

/-- `AppState.remove_todo`: keep only the records whose id differs from the
given one. -/
def remove_todo (todos : List TodoState) (todo_id : Nat) : List TodoState :=
  todos.filter (fun todo => todo.id ≠ todo_id)

end TodoTmp

/-- Number of `on_state_changed` calls a delivery log contains for one
observer. -/
def callsTo (o : ObserverId) (log : Log) : Nat :=
  log.countP (fun p => p.1 = o)

/-- Driving the store through a sequence of `Model.update_count` calls (the
only mutation path the invariant claim considers). -/
def runOps (s : State) (ops : List String) : State :=
  ops.foldl (fun st op => (Model.update_count st op).1) s

/-- C3: `Model.choose_error` implements exactly the three-rule precedence: no
current error → adopt the new error (including `None`); a current error that
is not a `StateValueError` sticks regardless of the new error; a current
`StateValueError` is overwritten by the new error (including `None`). -/
theorem choose_error_three_rule_precedence (cur new : Option Exc) :
    (cur = none → Model.choose_error cur new = new)
    ∧ (∀ c : Exc, cur = some c → c.isStateValueError = false →
        Model.choose_error cur new = cur)
    ∧ (∀ c : Exc, cur = some c → c.isStateValueError = true →
        Model.choose_error cur new = new) := by
  refine ⟨fun h => by simp [Model.choose_error, h],
    fun c h hc => ?_, fun c h hc => ?_⟩
  · subst h
    simp [Model.choose_error, hc]
  · subst h
    simp [Model.choose_error, hc]

/-- Witness for C3: a sticky non-validation error survives a new validation
error. -/
theorem choose_error_three_rule_precedence_witness :
    Model.choose_error (some (Exc.otherError "io failure"))
      (some (Exc.stateValueError "値は負の数にできません。"))
      = some (Exc.otherError "io failure") :=
  (choose_error_three_rule_precedence (some (Exc.otherError "io failure"))
    (some (Exc.stateValueError "値は負の数にできません。"))).2.1
    (Exc.otherError "io failure") rfl rfl

/-- C7: `State.bind` is idempotent — binding an already-bound observer leaves
the registry unchanged (same size, same order) — and `State.unbind` returns
`true` and removes the observer exactly when it was present (the registry
shrinks by one), returning `false` and leaving the registry unchanged
otherwise. -/
theorem bind_idempotent_unbind_exact (s : State) (c : ObserverId) :
    ((s.bind c).bind c = s.bind c)
    ∧ (c ∈ s.observers → s.bind c = s)
    ∧ (c ∈ s.observers → (s.unbind c).2 = true
        ∧ (s.unbind c).1.observers = s.observers.erase c
        ∧ (s.unbind c).1.observers.length + 1 = s.observers.length)
    ∧ (c ∉ s.observers → s.unbind c = (s, false)) := by
  refine ⟨?_, fun h => by simp [State.bind, h], fun h => ?_, fun h => ?_⟩
  · by_cases h : c ∈ s.observers
    · simp [State.bind, h]
    · simp [State.bind, h]
  · refine ⟨by simp [State.unbind, h], by simp [State.unbind, h], ?_⟩
    have hlen := List.length_erase_of_mem h
    have hpos : 0 < s.observers.length := List.length_pos_of_mem h
    simp [State.unbind, h, hlen]
    omega
  · simp [State.unbind, h]

/-- Witness for C7: observer 1 is bound, so binding it again is a no-op and
unbinding it removes it. -/
theorem bind_idempotent_unbind_exact_witness :
    (1 : ObserverId) ∈ ({ count := 0, error := none, observers := [1, 2] } :
        State).observers
    ∧ ({ count := 0, error := none, observers := [1, 2] } : State).bind 1
      = { count := 0, error := none, observers := [1, 2] } :=
  ⟨by decide,
    (bind_idempotent_unbind_exact
      { count := 0, error := none, observers := [1, 2] } 1).2.1 (by decide)⟩

/-- Counterexample for C8: for the snapshot carrying
`StateValueError("値は負の数にできません。")` the view model's error message is
not the error's detail text — the code uses `str(error)`, which prefixes the
detail with a fixed header. -/
theorem create_view_model_detail_ce :
    ¬ ((Presenter._create_view_model
        { count := 0,
          error := some (Exc.stateValueError "値は負の数にできません。") }).error_message
      = some "値は負の数にできません。") := by
  decide

/-- C8 (amended): the projection is a total function; an error of `None`
yields no message, a `StateValueError` yields its full message string
`str(error)` — the fixed header followed by the detail text — and every other
error value yields the generic fallback message; the displayed count is
always the decimal rendering of `snapshot.count`. -/
theorem create_view_model_total_projection (snapshot : StateSnapshot) :
    ((Presenter._create_view_model snapshot).display_count
      = toString snapshot.count)
    ∧ (snapshot.error = none →
        (Presenter._create_view_model snapshot).error_message = none)
    ∧ (∀ d : String, snapshot.error = some (Exc.stateValueError d) →
        (Presenter._create_view_model snapshot).error_message
          = some ("エラーが発生しました: " ++ d))
    ∧ (∀ e : Exc, snapshot.error = some e → e.isStateValueError = false →
        (Presenter._create_view_model snapshot).error_message
          = some "予期せぬエラーが発生しました。") := by
  refine ⟨rfl, fun h => by simp [Presenter._create_view_model, h],
    fun d h => by simp [Presenter._create_view_model, h, Exc.str],
    fun e h he => ?_⟩
  cases e with
  | stateValueError d => simp [Exc.isStateValueError] at he
  | valueError m => simp [Presenter._create_view_model, h]
  | otherError i => simp [Presenter._create_view_model, h]

/-- Witness for C8 (amended): the validation error's snapshot renders to its
full message string. -/
theorem create_view_model_total_projection_witness :
    (Presenter._create_view_model
      { count := 0,
        error := some (Exc.stateValueError "値は負の数にできません。") }).error_message
      = some ("エラーが発生しました: " ++ "値は負の数にできません。") :=
  (create_view_model_total_projection
    { count := 0,
      error := some (Exc.stateValueError "値は負の数にできません。") }).2.2.1
    "値は負の数にできません。" rfl

/-- C6: for every operation other than `"increment"` and `"decrement"`,
`Model.calculate_next_count` raises the unsupported-operation `ValueError`,
which propagates unchanged out of `Model._prepare_transaction` and
`Model.update_count` to the caller: the state is returned untouched (so the
error is not stored as the Store's error), and no observer is notified. -/
theorem unsupported_operation_propagates (s : State) (operation : String)
    (h1 : operation ≠ "increment") (h2 : operation ≠ "decrement") :
    Model.calculate_next_count s.count operation
      = .error (Exc.valueError ("Unsupported operation: " ++ operation))
    ∧ Model._prepare_transaction s operation
      = .error (Exc.valueError ("Unsupported operation: " ++ operation))
    ∧ Model.update_count s operation
      = (s, [], some (Exc.valueError ("Unsupported operation: " ++ operation))) := by
  have hc : Model.calculate_next_count s.count operation
      = .error (Exc.valueError ("Unsupported operation: " ++ operation)) := by
    simp [Model.calculate_next_count, h1, h2]
  have hp : Model._prepare_transaction s operation
      = .error (Exc.valueError ("Unsupported operation: " ++ operation)) := by
    simp [Model._prepare_transaction, hc]
  exact ⟨hc, hp, by simp [Model.update_count, hp]⟩

/-- Witness for C6: the operation `"reset"` is rejected and propagates. -/
theorem unsupported_operation_propagates_witness :
    Model.update_count State.init "reset"
      = (State.init, [], some (Exc.valueError ("Unsupported operation: " ++ "reset"))) :=
  (unsupported_operation_propagates State.init "reset" (by decide) (by decide)).2.2

/-- Helper: one `notify()` call delivers to observer `o` exactly as many
`on_state_changed` calls as `o` has registrations. -/
theorem callsTo_notify (s : State) (o : ObserverId) :
    callsTo o s.notify = s.observers.countP (fun x => x = o) := by
  simp only [callsTo, State.notify, List.countP_map]
  rfl

/-- C2: if some step of the change list raises during
`State.commit_transaction`, then after commit returns, the count observable
via `get_snapshot()` equals the count captured in the transaction's
`initial_state`, and the raised exception is the store's current error —
partial effects of the failing step on the count do not persist. -/
theorem commit_rollback_on_failure (s : State) (t : StateTransaction)
    (s1 : State) (log : Log) (e : Exc)
    (h : s.commitChanges t.changes = (s1, log, some e)) :
    ((s.commit_transaction t).1.get_snapshot).count = t.initial_state.count
    ∧ ((s.commit_transaction t).1.get_snapshot).error = some e := by
  simp [State.commit_transaction, h, State.set_error, State.get_snapshot]

/-- Witness for C2: a step that bumps the count to 999 and then raises is
rolled back to the captured initial count 5, and its exception becomes the
store error. -/
theorem commit_rollback_on_failure_witness :
    ((State.commit_transaction { count := 5, error := none, observers := [0] }
      { initial_state := { count := 5, error := none },
        changes := [fun st => ChangeResult.raised { st with count := 999 } []
          (Exc.otherError "boom")] }).1.get_snapshot).count = 5
    ∧ ((State.commit_transaction { count := 5, error := none, observers := [0] }
      { initial_state := { count := 5, error := none },
        changes := [fun st => ChangeResult.raised { st with count := 999 } []
          (Exc.otherError "boom")] }).1.get_snapshot).error
      = some (Exc.otherError "boom") :=
  commit_rollback_on_failure
    { count := 5, error := none, observers := [0] }
    { initial_state := { count := 5, error := none },
      changes := [fun st => ChangeResult.raised { st with count := 999 } []
        (Exc.otherError "boom")] }
    { count := 999, error := none, observers := [0] } []
    (Exc.otherError "boom") rfl

/-- Counterexample for C1: a commit of a transaction with an empty change
list (the no-op commit) triggers zero `on_state_changed` calls for the single
bound observer, not exactly one. -/
theorem commit_single_notification_ce :
    callsTo 0 (State.commit_transaction
      { count := 0, error := none, observers := [0] }
      { initial_state := { count := 0, error := none }, changes := [] }).2
      ≠ 1 := by
  decide

/-- C1 (amended): `State.set_error` always triggers exactly one
`on_state_changed` call per bound observer.  `State.commit_transaction` (and
its async variant) does not itself notify on the success path — the
deliveries are the ones its steps perform — so for the transactions the
Model actually prepares it notifies exactly once per bound observer when the
single change is `apply_increment`/`apply_decrement`, exactly once (via
`set_error`) when the single change raises without having notified, and zero
times, not once, when the change list is empty (the no-op commit). -/
theorem notification_discipline (s : State) (o : ObserverId)
    (h : s.observers.countP (fun x => x = o) = 1) :
    (∀ e : Option Exc, callsTo o (s.set_error e).2 = 1)
    ∧ (∀ t : StateTransaction, t.changes = [] →
        (s.commit_transaction t).2 = [])
    ∧ (∀ t : StateTransaction,
        (t.changes = [Model.apply_increment]
          ∨ t.changes = [Model.apply_decrement]) →
        callsTo o (s.commit_transaction t).2 = 1)
    ∧ (∀ (t : StateTransaction) (c : Change) (s1 : State) (e : Exc),
        t.changes = [c] → c s = .raised s1 [] e →
        s1.observers.countP (fun x => x = o) = 1 →
        callsTo o (s.commit_transaction t).2 = 1) := by
  refine ⟨fun e => ?_, fun t ht => ?_, fun t ht => ?_, fun t c s1 e ht hc h1 => ?_⟩
  · have hn := callsTo_notify ({ s with error := e } : State) o
    simpa [State.set_error, h] using hn
  · simp [State.commit_transaction, ht, State.commitChanges]
  · have key : ∀ delta : Int,
        callsTo o (({ s with count := delta } : State).notify) = 1 := by
      intro delta
      have hn := callsTo_notify ({ s with count := delta } : State) o
      simpa [h] using hn
    rcases ht with ht | ht
    · simp [State.commit_transaction, ht, State.commitChanges,
        Model.apply_increment, State.increment, callsTo] at key ⊢
      exact key (s.count + 1)
    · simp [State.commit_transaction, ht, State.commitChanges,
        Model.apply_decrement, State.decrement, callsTo] at key ⊢
      exact key (s.count - 1)
  · have hn := callsTo_notify
      ({ { s1 with count := t.initial_state.count } with error := some e } : State) o
    simp [State.commit_transaction, ht, State.commitChanges, hc,
      State.set_error]
    simpa [h1] using hn

/-- Witness for C1 (amended): with a single bound observer, setting an error
delivers exactly one `on_state_changed` call. -/
theorem notification_discipline_witness :
    callsTo 0 (({ count := 0, error := none, observers := [0] } : State).set_error
      (some (Exc.otherError "boom"))).2 = 1 :=
  (notification_discipline { count := 0, error := none, observers := [0] } 0
    (by decide)).1 (some (Exc.otherError "boom"))

/-- Helper: deliveries of concatenated logs add up per observer. -/
theorem callsTo_append (o : ObserverId) (l1 l2 : Log) :
    callsTo o (l1 ++ l2) = callsTo o l1 + callsTo o l2 := by
  simp [callsTo, List.countP_append]

/-- C4: when the computed next value fails validation, the prepared
transaction's change list stays empty (and the returned validation carries
the domain error), `update_count` leaves the count unchanged and raises
nothing, and — starting from a store with no prior error, as in the spec's
scenario — the store's error becomes the `StateValueError` whose detail says
the value may not be negative. -/
theorem rejected_update_blocks_mutation (s : State) (operation : String)
    (next : Int)
    (hc : Model.calculate_next_count s.count operation = .ok next)
    (hn : next < 0) :
    Model._prepare_transaction s operation
      = .ok ({ initial_state := s.get_snapshot, changes := [] },
        { is_valid := false,
          error := some (Exc.stateValueError "値は負の数にできません。") })
    ∧ (Model.update_count s operation).1.count = s.count
    ∧ (Model.update_count s operation).2.2 = none
    ∧ (s.error = none → (Model.update_count s operation).1.error
        = some (Exc.stateValueError "値は負の数にできません。")) := by
  have hp : Model._prepare_transaction s operation
      = .ok ({ initial_state := s.get_snapshot, changes := [] },
        { is_valid := false,
          error := some (Exc.stateValueError "値は負の数にできません。") }) := by
    simp [Model._prepare_transaction, hc, Model.validate_count, hn,
      State.begin_transaction]
  refine ⟨hp, ?_, ?_, fun he => ?_⟩
  · simp [Model.update_count, hp, State.commit_transaction, State.commitChanges,
      Model.update_error, Model.choose_error, State.set_error]
  · simp [Model.update_count, hp]
  · simp [Model.update_count, hp, State.commit_transaction, State.commitChanges,
      Model.update_error, Model.choose_error, State.set_error, he]

/-- Witness for C4: the spec's scenario — fresh store (count 0, no error),
decrement is rejected, the count stays 0 and the validation error is set. -/
theorem rejected_update_blocks_mutation_witness :
    (Model.update_count State.init "decrement").1.count = State.init.count
    ∧ (Model.update_count State.init "decrement").1.error
      = some (Exc.stateValueError "値は負の数にできません。") :=
  have h := rejected_update_blocks_mutation State.init "decrement" (-1)
    (by simp [Model.calculate_next_count, State.init]) (by decide)
  ⟨h.2.1, h.2.2.2 rfl⟩

/-- C10: a single successful validated `Model.update_count` call triggers
exactly two `on_state_changed` calls per bound observer, not one — the
mutation step (`State.increment`/`State.decrement`) notifies once, and
`State.set_error` inside the error-reconciliation phase (`update_error`)
that always follows the commit notifies a second time. -/
theorem successful_update_two_notifications (s : State) (o : ObserverId)
    (operation : String) (next : Int)
    (hop : operation = "increment" ∨ operation = "decrement")
    (hc : Model.calculate_next_count s.count operation = .ok next)
    (hn : 0 ≤ next)
    (h : s.observers.countP (fun x => x = o) = 1) :
    (Model.update_count s operation).2.2 = none
    ∧ callsTo o (Model.update_count s operation).2.1 = 2 := by
  rcases hop with hop | hop <;> subst hop
  · have h1 : s.count + 1 = next := by
      simpa [Model.calculate_next_count] using hc
    have hv : ¬ (s.count + 1 < 0) := by omega
    have hp : Model._prepare_transaction s "increment"
        = .ok ({ initial_state := s.get_snapshot,
                 changes := [Model.apply_increment] },
               { is_valid := true }) := by
      simp [Model._prepare_transaction, Model.calculate_next_count,
        Model.validate_count, hv, State.begin_transaction]
    have hshape : (Model.update_count s "increment").2.1
        = ({ s with count := s.count + 1 } : State).notify
          ++ ({ s with count := s.count + 1,
                       error := Model.choose_error s.error none } : State).notify := by
      simp [Model.update_count, hp, State.commit_transaction,
        State.commitChanges, Model.apply_increment, State.increment,
        Model.update_error, State.set_error]
    refine ⟨by simp [Model.update_count, hp], ?_⟩
    rw [hshape, callsTo_append, callsTo_notify, callsTo_notify]
    simp [h]
  · have h1 : s.count - 1 = next := by
      simpa [Model.calculate_next_count] using hc
    have hv : ¬ (s.count - 1 < 0) := by omega
    have hp : Model._prepare_transaction s "decrement"
        = .ok ({ initial_state := s.get_snapshot,
                 changes := [Model.apply_decrement] },
               { is_valid := true }) := by
      simp [Model._prepare_transaction, Model.calculate_next_count,
        Model.validate_count, hv, State.begin_transaction]
    have hshape : (Model.update_count s "decrement").2.1
        = ({ s with count := s.count - 1 } : State).notify
          ++ ({ s with count := s.count - 1,
                       error := Model.choose_error s.error none } : State).notify := by
      simp [Model.update_count, hp, State.commit_transaction,
        State.commitChanges, Model.apply_decrement, State.decrement,
        Model.update_error, State.set_error]
    refine ⟨by simp [Model.update_count, hp], ?_⟩
    rw [hshape, callsTo_append, callsTo_notify, callsTo_notify]
    simp [h]

/-- Witness for C10: a fresh store with one bound observer delivers two
`on_state_changed` calls for one successful increment. -/
theorem successful_update_two_notifications_witness :
    callsTo 0 (Model.update_count
      { count := 0, error := none, observers := [0] } "increment").2.1 = 2 :=
  (successful_update_two_notifications
    { count := 0, error := none, observers := [0] } 0 "increment" 1
    (Or.inl rfl) (by simp [Model.calculate_next_count]) (by decide)
    (by decide)).2

/-- Helper for the invariant: one `Model.update_count` call never takes a
non-negative count negative — a rejected validation appends no mutation step
and an unsupported operation propagates before any mutation. -/
theorem update_count_preserves_nonneg (s : State) (op : String)
    (h : 0 ≤ s.count) : 0 ≤ (Model.update_count s op).1.count := by
  by_cases hi : op = "increment"
  · subst hi
    have hv : ¬ (s.count + 1 < 0) := by omega
    simp [Model.update_count, Model._prepare_transaction,
      Model.calculate_next_count, Model.validate_count, hv,
      State.begin_transaction, State.commit_transaction, State.commitChanges,
      Model.apply_increment, State.increment, Model.update_error,
      State.set_error]
    omega
  · by_cases hd : op = "decrement"
    · subst hd
      by_cases hneg : s.count - 1 < 0
      · simp [Model.update_count, Model._prepare_transaction,
          Model.calculate_next_count, Model.validate_count, hneg,
          State.begin_transaction, State.commit_transaction,
          State.commitChanges, Model.update_error, State.set_error, hi]
        omega
      · simp [Model.update_count, Model._prepare_transaction,
          Model.calculate_next_count, Model.validate_count, hneg,
          State.begin_transaction, State.commit_transaction,
          State.commitChanges, Model.apply_decrement, State.decrement,
          Model.update_error, State.set_error, hi]
        omega
    · simp [Model.update_count, Model._prepare_transaction,
        Model.calculate_next_count, hi, hd]
      omega

/-- C9: starting from a freshly constructed `State` (count 0) and mutating
only through `Model.update_count` with operations `"increment"` and
`"decrement"`, the store's count is non-negative after every call: no such
sequence can drive the count below zero. -/
theorem counter_count_never_negative (ops : List String)
    (hops : ∀ op ∈ ops, op = "increment" ∨ op = "decrement") :
    0 ≤ (runOps State.init ops).count := by
  have key : ∀ (l : List String) (s : State), 0 ≤ s.count →
      0 ≤ (runOps s l).count := by
    intro l
    induction l with
    | nil => intro s hs; simpa [runOps] using hs
    | cons a t ih =>
      intro s hs
      have step := update_count_preserves_nonneg s a hs
      simpa [runOps] using ih (Model.update_count s a).1 step
  exact key ops State.init (by simp [State.init])

/-- Witness for C9: a concrete sequence including a rejected decrement. -/
theorem counter_count_never_negative_witness :
    0 ≤ (runOps State.init ["decrement", "increment", "decrement", "decrement"]).count :=
  counter_count_never_negative ["decrement", "increment", "decrement", "decrement"]
    (by decide)

/-- C5: in the name-keyed to-do variant, a task list holding two tasks with
the same name has every one of them mutated by `edit_task`,
`toggle_task_state` and `remove_task` — not exactly one — whereas the
identifier-keyed `AppState.remove_todo` of the other variant removes exactly
the one record carrying the given id when the other records carry different
ids. -/
theorem name_keyed_mutation_hits_duplicates :
    (∀ (pre mid post : List TodoRefactoring.TaskState)
        (t1 t2 : TodoRefactoring.TaskState) (n new_name : String),
      t1.task_name = n → t2.task_name = n →
      TodoRefactoring.edit_task (pre ++ t1 :: mid ++ t2 :: post) n new_name
        = TodoRefactoring.edit_task pre n new_name
          ++ t1.with_task_name new_name
            :: TodoRefactoring.edit_task mid n new_name
          ++ t2.with_task_name new_name
            :: TodoRefactoring.edit_task post n new_name)
    ∧ (∀ (pre mid post : List TodoRefactoring.TaskState)
        (t1 t2 : TodoRefactoring.TaskState) (n : String),
      t1.task_name = n → t2.task_name = n →
      TodoRefactoring.toggle_task_state (pre ++ t1 :: mid ++ t2 :: post) n
        = TodoRefactoring.toggle_task_state pre n
          ++ t1.with_completed (! t1.completed)
            :: TodoRefactoring.toggle_task_state mid n
          ++ t2.with_completed (! t2.completed)
            :: TodoRefactoring.toggle_task_state post n)
    ∧ (∀ (pre mid post : List TodoRefactoring.TaskState)
        (t1 t2 : TodoRefactoring.TaskState) (n : String),
      t1.task_name = n → t2.task_name = n →
      TodoRefactoring.remove_task (pre ++ t1 :: mid ++ t2 :: post) n
        = TodoRefactoring.remove_task pre n
          ++ TodoRefactoring.remove_task mid n
          ++ TodoRefactoring.remove_task post n)
    ∧ (∀ (pre post : List TodoTmp.TodoState) (t : TodoTmp.TodoState),
      (∀ u ∈ pre, u.id ≠ t.id) → (∀ u ∈ post, u.id ≠ t.id) →
      TodoTmp.remove_todo (pre ++ t :: post) t.id = pre ++ post) := by
  refine ⟨fun pre mid post t1 t2 n new_name h1 h2 => ?_,
    fun pre mid post t1 t2 n h1 h2 => ?_,
    fun pre mid post t1 t2 n h1 h2 => ?_,
    fun pre post t hpre hpost => ?_⟩
  · simp [TodoRefactoring.edit_task, h1, h2]
  · simp [TodoRefactoring.toggle_task_state, h1, h2]
  · simp [TodoRefactoring.remove_task, h1, h2]
  · simp only [TodoTmp.remove_todo, List.filter_append, List.filter_cons]
    rw [List.filter_eq_self.mpr (by simpa using hpre),
      List.filter_eq_self.mpr (by simpa using hpost)]
    simp

/-- Witness for C5: two tasks both named `"X"` are both renamed, while the
id-keyed removal of the record with id 1 keeps the records with ids 0 and
2. -/
theorem name_keyed_mutation_hits_duplicates_witness :
    TodoTmp.remove_todo
      ([{ id := 0, task_name := "X", editing := false, completed := false }]
        ++ ({ id := 1, task_name := "X", editing := false, completed := false } :
              TodoTmp.TodoState)
          :: [{ id := 2, task_name := "Y", editing := false, completed := true }])
      ({ id := 1, task_name := "X", editing := false, completed := false } :
          TodoTmp.TodoState).id
      = [{ id := 0, task_name := "X", editing := false, completed := false }]
        ++ [{ id := 2, task_name := "Y", editing := false, completed := true }] :=
  name_keyed_mutation_hits_duplicates.2.2.2
    [{ id := 0, task_name := "X", editing := false, completed := false }]
    [{ id := 2, task_name := "Y", editing := false, completed := true }]
    { id := 1, task_name := "X", editing := false, completed := false }
    (by decide) (by decide)
